import Mathlib

/-!
Shallow embedding of `src/strategy.ts` of passport-token-google:
a token-based OAuth 2.0 authentication strategy.  JavaScript values that
the strategy inspects are modelled by the small universe `JsVal` (with JS
truthiness), the inbound request by `Request`, and the host-supplied
primitives (the HTTP client `_oauth2.get`, `JSON.parse`, and the
application verify callback) by an explicit environment `Env`.  Each
continuation is invoked at most once in the source, so the
continuation-passing control flow is embedded as plain functions into the
four-way `Outcome` type (`success` / `fail` / `error` signalled to the
framework, or `thrown` when a property access on a missing container
raises a TypeError and no outcome is signalled).
-/

/-- JavaScript values relevant to the strategy: primitives, abstract objects,
the `InternalOAuthError` produced by the profile fetcher (message plus the
wrapped cause), and generic exception objects (e.g. the `SyntaxError`
thrown by `JSON.parse`). An absent property is `undefined`. -/
inductive JsVal where
  | undefined
  | null
  | bool (b : Bool)
  | num (n : Int)
  | str (s : String)
  | obj (id : Nat)
  | internalOAuthError (message : String) (oauthError : JsVal)
  | exn (tag : String) (payload : JsVal)
deriving DecidableEq, Repr

/-- JS truthiness: `undefined`, `null`, `false`, `0` and `""` are falsy;
objects and error objects are truthy. -/
def JsVal.truthy : JsVal → Bool
  | .undefined => false
  | .null => false
  | .bool b => b
  | .num n => n != 0
  | .str s => s != ""
  | .obj _ => true
  | .internalOAuthError _ _ => true
  | .exn _ _ => true

/-- JS string conversion, used where the source concatenates the access
token into the introspection URL (`"..." + accessToken`). -/
def jsToString : JsVal → String
  | .undefined => "undefined"
  | .null => "null"
  | .bool b => if b then "true" else "false"
  | .num n => toString n
  | .str s => s
  | .obj _ => "[object Object]"
  | .internalOAuthError m _ => m
  | .exn t _ => t

/-- A key-value container of a request (`req.query`, `req.body` or
`req.headers`): only the properties the strategy reads are modelled, an
absent property being `undefined`. -/
structure Params where
  access_token : JsVal := .undefined
  refresh_token : JsVal := .undefined
  error : JsVal := .undefined
deriving DecidableEq, Repr

/-- An inbound request: each of the three containers may itself be absent
(`none` models `req.query === undefined`, etc.). -/
structure Request where
  query : Option Params := none
  body : Option Params := none
  headers : Option Params := none
deriving DecidableEq, Repr

/-- The parsed provider JSON, restricted to the claims the mapping reads
(`json.id`, `json.sub`, `json.name`, `json.family_name`,
`json.given_name`, `json.email`); an absent claim is `undefined`. -/
structure JsonObj where
  id : JsVal := .undefined
  sub : JsVal := .undefined
  name : JsVal := .undefined
  family_name : JsVal := .undefined
  given_name : JsVal := .undefined
  email : JsVal := .undefined
deriving DecidableEq, Repr

/-- The `name` sub-record of the normalized profile. -/
structure NameRec where
  familyName : JsVal
  givenName : JsVal
deriving DecidableEq, Repr

/-- One entry of the `emails` sequence of the normalized profile. -/
structure EmailEntry where
  value : JsVal
deriving DecidableEq, Repr

/-- The normalized profile constructed by `userProfile`. -/
structure Profile where
  profileUrl : String
  provider : String
  id : JsVal
  displayName : JsVal
  name : NameRec
  emails : List EmailEntry
  _raw : String
  _json : JsonObj
deriving DecidableEq, Repr

/-- The configured `_skipUserProfile` policy, as the tagged variant the
source discriminates by `typeof` and arity: a plain value, a function of
arity at most one (called with no arguments), or a function of arity at
least two (called with the token and a callback; modelled by the
`(err, skip)` pair it passes to that callback). -/
inductive SkipPolicy where
  | value (v : JsVal)
  | syncFn (f : Unit → JsVal)
  | asyncFn (f : JsVal → JsVal × JsVal)

/-- Strategy state that `authenticate` consults: `_passReqToCallback` and
`_skipUserProfile` (default: not configured, i.e. `undefined`). -/
structure Config where
  passReqToCallback : Bool := false
  skipUserProfile : SkipPolicy := .value .undefined

/-- The outcome of one `authenticate` invocation: one of the three
framework signals, or `thrown` when a TypeError escapes (no framework
outcome is signalled). `fail` carries the single argument passed to
`self.fail` (`undefined` when called with no argument). -/
inductive Outcome where
  | success (user info : JsVal)
  | fail (info : JsVal)
  | error (err : JsVal)
  | thrown
deriving DecidableEq, Repr

/-- Host-supplied primitives: the HTTP client `_oauth2.get` (for a URL, the
`(err, body)` pair it passes to its callback), `JSON.parse` (result or
thrown exception), and the application verify callback (the `(err, user,
info)` triple it passes to `verified`; its first argument is the request
when `passReqToCallback` is set, else absent). -/
structure Env where
  http : String → JsVal × String
  parse : String → Except JsVal JsonObj
  verify : Option Request → JsVal → JsVal → Option Profile → JsVal × JsVal × JsVal

/-- Reading a property of a container: a TypeError is raised (modelled by
`Except.error ()`) when the container itself is absent. -/
def getField (c : Option Params) (f : Params → JsVal) : Except Unit JsVal :=
  match c with
  | none => .error ()
  | some p => .ok (f p)

/-- Credential extraction of `authenticate` (strategy.ts lines 87-96) for
one field selector `f`: with a body container,
`req.body.f || req.query.f || req.headers.f`; without one,
`req.headers.f || req.query.f`. The JS `||` takes the first truthy
operand and otherwise the last evaluated one; each property access on an
absent container raises. -/
def pickToken (req : Request) (f : Params → JsVal) : Except Unit JsVal :=
  match req.body with
  | some b =>
    if (f b).truthy then .ok (f b)
    else
      match getField req.query f with
      | .error e => .error e
      | .ok q =>
        if q.truthy then .ok q
        else getField req.headers f
  | none =>
    match getField req.headers f with
    | .error e => .error e
    | .ok h =>
      if h.truthy then .ok h
      else getField req.query f

/-- The guard `req.query && req.query.error` of strategy.ts line 81. -/
def queryErrorFlag (req : Request) : Bool :=
  match req.query with
  | none => false
  | some q => q.error.truthy

/-- The introspection URL built by `userProfile` (strategy.ts line 139). -/
def profileUrlOf (accessToken : JsVal) : String :=
  "https://www.googleapis.com/oauth2/v3/tokeninfo?id_token=" ++ jsToString accessToken

/-- JS `a || b` on values, as used for `json.id || json.sub`. -/
def jsOr (a b : JsVal) : JsVal :=
  if a.truthy then a else b

/-- The profile fetcher `userProfile` (strategy.ts lines 135-173): one HTTP
GET to the introspection URL; on a transport error, an
`InternalOAuthError` wrapping the cause; otherwise `JSON.parse` of the
body, whose exception propagates, and on success the normalized profile. -/
def userProfile (parse : String → Except JsVal JsonObj)
    (http : String → JsVal × String) (accessToken : JsVal) :
    Except JsVal Profile :=
  let profileUrl := profileUrlOf accessToken
  let r := http profileUrl
  if r.1.truthy then
    .error (.internalOAuthError "failed to fetch user profile" r.1)
  else
    match parse r.2 with
    | .error e => .error e
    | .ok json =>
      .ok { profileUrl := profileUrl
            provider := "google"
            id := jsOr json.id json.sub
            displayName := json.name
            name := { familyName := json.family_name, givenName := json.given_name }
            emails := [{ value := json.email }]
            _raw := r.2
            _json := json }

/-- The profile loader `_loadUserProfile` (strategy.ts lines 182-219): the
async-arity policy is invoked with the token and its callback error
propagates; otherwise the sync result or the plain value decides; a falsy
skip decision fetches, a truthy one completes with `(null, undefined)`. -/
def _loadUserProfile (skip : SkipPolicy) (fetch : JsVal → Except JsVal Profile)
    (accessToken : JsVal) : Except JsVal (Option Profile) :=
  match skip with
  | .asyncFn f =>
    let r := f accessToken
    if r.1.truthy then .error r.1
    else if r.2.truthy then .ok none
    else (fetch accessToken).map some
  | .syncFn f =>
    if (f ()).truthy then .ok none
    else (fetch accessToken).map some
  | .value v =>
    if v.truthy then .ok none
    else (fetch accessToken).map some

/-- The fetch path `_loadUserProfile` delegates to: `self.userProfile`
with the environment's HTTP client and parser. -/
def mkFetch (env : Env) : JsVal → Except JsVal Profile :=
  fun tok => userProfile env.parse env.http tok

/-- The continuation `verified` (strategy.ts lines 103-111) translating the
verify callback's `(err, user, info)` into a framework signal. -/
def verified (err user info : JsVal) : Outcome :=
  if err.truthy then .error err
  else if !user.truthy then .fail info
  else .success user info

/-- The request authenticator `authenticate` (strategy.ts lines 77-119):
the `query.error` guard, credential extraction for both tokens, profile
loading (whose error is signalled via `self.fail(err)`), then the verify
callback dispatched through `verified`. -/
def authenticate (cfg : Config) (env : Env) (req : Request) : Outcome :=
  if queryErrorFlag req then .fail .undefined
  else
    match pickToken req Params.access_token with
    | .error _ => .thrown
    | .ok accessToken =>
      match pickToken req Params.refresh_token with
      | .error _ => .thrown
      | .ok refreshToken =>
        match _loadUserProfile cfg.skipUserProfile (mkFetch env) accessToken with
        | .error e => .fail e
        | .ok profile =>
          let t := env.verify (if cfg.passReqToCallback then some req else none)
            accessToken refreshToken profile
          verified t.1 t.2.1 t.2.2

/-- Spec-side helper: the first present value of an ordered candidate list,
presence of a credential meaning JS truthiness (an absent field is
`undefined`, hence not present); `undefined` when none is present. -/
def firstPresent : List JsVal → JsVal
  | [] => .undefined
  | v :: vs => if v.truthy then v else firstPresent vs

/-- A field value is unambiguously present-or-absent: either the absent
`undefined`, or a truthy (present) value. -/
def presentOrAbsent (v : JsVal) : Bool :=
  v == .undefined || v.truthy

/-- Outcome classifiers. -/
def isErrorOut : Outcome → Bool
  | .error _ => true
  | _ => false

/-- An outcome actually signalled to the framework (not an escaped
exception). -/
def isFramed : Outcome → Bool
  | .thrown => false
  | _ => true

/-- The skip decision resolved by `_loadUserProfile`, as a boolean: a
truthy plain value, a truthy sync-predicate result, or an async predicate
reporting no error and a truthy skip flag. -/
def skipResolves (skip : SkipPolicy) (accessToken : JsVal) : Bool :=
  match skip with
  | .value v => v.truthy
  | .syncFn f => (f ()).truthy
  | .asyncFn f => !(f accessToken).1.truthy && (f accessToken).2.truthy

/-- C3: every invocation of the continuation `verified` with `(err, user,
info)` signals the error outcome with `err` when `err` is present
(truthy), the fail outcome carrying `info` when `err` is absent and
`user` is falsy, and otherwise the success outcome carrying `user` and
`info`. -/
theorem verified_outcome_translation (err user info : JsVal) :
    (err.truthy = true → verified err user info = .error err) ∧
    (err.truthy = false → user.truthy = false → verified err user info = .fail info) ∧
    (err.truthy = false → user.truthy = true → verified err user info = .success user info) := by
  refine ⟨fun h => ?_, fun h1 h2 => ?_, fun h1 h2 => ?_⟩ <;> simp [verified, *]

/-- Witness for C3: the continuation invoked as `(null, false, "bad
creds")` fails with reason `"bad creds"`, and as `(null, {id:1}, null)`
succeeds with that user. -/
theorem verified_outcome_translation_witness :
    verified .null (.bool false) (.str "bad creds") = .fail (.str "bad creds") ∧
    verified .null (.obj 1) .null = .success (.obj 1) .null :=
  ⟨(verified_outcome_translation .null (.bool false) (.str "bad creds")).2.1 (by decide) (by decide),
   (verified_outcome_translation .null (.obj 1) .null).2.2 (by decide) (by decide)⟩

/-- C4: the profile fetcher distinguishes the two error kinds.  On a
transport error it completes, for every parser (so without attempting to
parse the body), with an `InternalOAuthError` whose message is the fixed
"failed to fetch user profile" and which wraps the original cause; on a
successful GET whose body fails to parse it completes with the parse
exception itself. -/
theorem userProfile_error_kinds (http : String → JsVal × String) (tok : JsVal) :
    (∀ parse, (http (profileUrlOf tok)).1.truthy = true →
      userProfile parse http tok =
        .error (.internalOAuthError "failed to fetch user profile" (http (profileUrlOf tok)).1)) ∧
    (∀ parse e, (http (profileUrlOf tok)).1.truthy = false →
      parse (http (profileUrlOf tok)).2 = .error e →
      userProfile parse http tok = .error e) := by
  constructor
  · intro parse h
    simp [userProfile, h]
  · intro parse e h hp
    simp [userProfile, h, hp]

/-- Witness for C4: a failing GET yields the wrapping error under a parser
that would succeed, and a successful GET with an unparsable body yields
the parse exception. -/
theorem userProfile_error_kinds_witness :
    userProfile (fun _ => .ok {}) (fun _ => (.exn "ECONNREFUSED" .undefined, "body"))
        (.str "tok") =
      .error (.internalOAuthError "failed to fetch user profile" (.exn "ECONNREFUSED" .undefined)) ∧
    userProfile (fun _ => .error (.exn "SyntaxError" .undefined)) (fun _ => (.null, "not json"))
        (.str "tok") =
      .error (.exn "SyntaxError" .undefined) :=
  ⟨(userProfile_error_kinds (fun _ => (.exn "ECONNREFUSED" .undefined, "body")) (.str "tok")).1
      (fun _ => .ok {}) (by decide),
   (userProfile_error_kinds (fun _ => (.null, "not json")) (.str "tok")).2
      (fun _ => .error (.exn "SyntaxError" .undefined)) (.exn "SyntaxError" .undefined)
      (by decide) rfl⟩

/-- C6: a request whose query container is present with a truthy `error`
field makes `authenticate` fail immediately with no reason payload
(`undefined`), for every configuration and environment — in particular
the profile loader and the HTTP client are never consulted. -/
theorem authenticate_query_error_immediate_fail (cfg : Config) (env : Env) (req : Request)
    (q : Params) (hq : req.query = some q) (he : q.error.truthy = true) :
    authenticate cfg env req = .fail .undefined := by
  simp [authenticate, queryErrorFlag, hq, he]

/-- Witness for C6: a concrete request carrying `query.error`. -/
theorem authenticate_query_error_immediate_fail_witness :
    authenticate {}
      { http := fun _ => (.undefined, ""), parse := fun _ => .error .undefined,
        verify := fun _ _ _ _ => (.undefined, .undefined, .undefined) }
      { query := some { error := .str "access_denied" } } = .fail .undefined :=
  authenticate_query_error_immediate_fail _ _ _ { error := .str "access_denied" } rfl (by decide)

/-- C7: whenever the configured skip-policy resolves to skip (a truthy
plain value such as `true`, a sync predicate returning a truthy value, or
an async predicate reporting skip), the profile loader completes with
`(null, undefined)` — modelled `.ok none` — for every fetcher, so the
fetcher is never invoked. -/
theorem loadUserProfile_skip_no_fetch (skip : SkipPolicy) (tok : JsVal)
    (h : skipResolves skip tok = true) :
    ∀ fetch, _loadUserProfile skip fetch tok = .ok none := by
  intro fetch
  cases skip with
  | value v =>
    simp only [skipResolves] at h
    simp [_loadUserProfile, h]
  | syncFn f =>
    simp only [skipResolves] at h
    simp [_loadUserProfile, h]
  | asyncFn f =>
    simp only [skipResolves, Bool.and_eq_true, Bool.not_eq_true'] at h
    simp [_loadUserProfile, h.1, h.2]

/-- Witness for C7: the skip-policy `true`, with a fetcher that would
error. -/
theorem loadUserProfile_skip_no_fetch_witness :
    _loadUserProfile (.value (.bool true)) (fun _ => .error (.exn "boom" .undefined))
      (.str "tok") = .ok none :=
  loadUserProfile_skip_no_fetch (.value (.bool true)) (.str "tok") (by decide)
    (fun _ => .error (.exn "boom" .undefined))

/-- C8: when the skip-policy is the asynchronous (two-parameter) predicate
and it reports an error, the profile loader completes with exactly that
error for every fetcher, so the fetcher is never invoked. -/
theorem loadUserProfile_async_error_propagates (f : JsVal → JsVal × JsVal) (tok e : JsVal)
    (he : (f tok).1 = e) (ht : e.truthy = true) :
    ∀ fetch, _loadUserProfile (.asyncFn f) fetch tok = .error e := by
  intro fetch
  simp [_loadUserProfile, he, ht]

/-- A concrete profile a fetcher could return, for the C8 witness. -/
def c8FetchedProfile : Profile :=
  { profileUrl := ""
    provider := "google"
    id := .undefined
    displayName := .undefined
    name := { familyName := .undefined, givenName := .undefined }
    emails := []
    _raw := ""
    _json := {} }

/-- Witness for C8: an async predicate erroring with a concrete exception,
with a fetcher that would succeed. -/
theorem loadUserProfile_async_error_propagates_witness :
    _loadUserProfile (.asyncFn (fun _ => (.exn "skipcheck failed" .undefined, .undefined)))
      (fun _ => .ok c8FetchedProfile)
      (.str "tok") = .error (.exn "skipcheck failed" .undefined) :=
  loadUserProfile_async_error_propagates
    (fun _ => (.exn "skipcheck failed" .undefined, .undefined))
    (.str "tok") (.exn "skipcheck failed" .undefined) rfl (by decide)
    (fun _ => .ok c8FetchedProfile)

/-- C5: on every successfully parsed provider response whose `id` claim is
either absent or a present (truthy) value, the normalized profile carries
`provider = "google"`, `profileUrl` equal to the exact introspection URL
the fetch used, `emails` the single-element sequence holding the `email`
claim, and `id` the response's `id` claim, falling back to `sub` exactly
when `id` is absent. -/
theorem userProfile_success_normalization (parse : String → Except JsVal JsonObj)
    (http : String → JsVal × String) (tok : JsVal) (json : JsonObj)
    (hhttp : (http (profileUrlOf tok)).1.truthy = false)
    (hparse : parse (http (profileUrlOf tok)).2 = .ok json)
    (hid : presentOrAbsent json.id = true) :
    ∃ p, userProfile parse http tok = .ok p ∧
      p.provider = "google" ∧
      p.profileUrl = profileUrlOf tok ∧
      p.emails = [{ value := json.email }] ∧
      p.id = (if json.id = .undefined then json.sub else json.id) := by
  have hmain : userProfile parse http tok =
      .ok { profileUrl := profileUrlOf tok
            provider := "google"
            id := jsOr json.id json.sub
            displayName := json.name
            name := { familyName := json.family_name, givenName := json.given_name }
            emails := [{ value := json.email }]
            _raw := (http (profileUrlOf tok)).2
            _json := json } := by
    simp [userProfile, hhttp, hparse]
  refine ⟨_, hmain, rfl, rfl, rfl, ?_⟩
  show jsOr json.id json.sub = _
  by_cases hu : json.id = .undefined
  · simp [jsOr, hu, JsVal.truthy]
  · have ht : json.id.truthy = true := by
      simp only [presentOrAbsent, Bool.or_eq_true, beq_iff_eq] at hid
      exact hid.resolve_left hu
    simp [jsOr, ht, hu]

/-- Witness for C5: the provider response with `sub = "42"`, a name and an
email but no `id` claim yields a profile whose `id` is `"42"`, whose
provider is the constant, whose `profileUrl` is the URL fetched, and
whose `emails` is the single-element sequence. -/
theorem userProfile_success_normalization_witness :
    ∃ p, userProfile
        (fun _ => .ok { sub := .str "42", name := .str "A B", email := .str "a@b.com" })
        (fun _ => (.null, "raw-body")) (.str "abc") = .ok p ∧
      p.provider = "google" ∧
      p.profileUrl = profileUrlOf (.str "abc") ∧
      p.emails = [{ value := .str "a@b.com" }] ∧
      p.id = .str "42" := by
  obtain ⟨p, h1, h2, h3, h4, h5⟩ := userProfile_success_normalization
    (fun _ => .ok { sub := .str "42", name := .str "A B", email := .str "a@b.com" })
    (fun _ => (.null, "raw-body")) (.str "abc")
    { sub := .str "42", name := .str "A B", email := .str "a@b.com" }
    (by decide) rfl (by decide)
  exact ⟨p, h1, h2, h3, h4, by simpa using h5⟩

/-- Credential extraction with a body container equals first-present over
body, query, header, provided the terminal header field is unambiguous. -/
theorem pickToken_body_case (req : Request) (b q h : Params) (f : Params → JsVal)
    (hb : req.body = some b) (hq : req.query = some q) (hh : req.headers = some h)
    (ph : presentOrAbsent (f h) = true) :
    pickToken req f = .ok (firstPresent [f b, f q, f h]) := by
  simp only [pickToken, hb, hq, hh, getField, firstPresent]
  by_cases h1 : (f b).truthy <;> by_cases h2 : (f q).truthy <;>
    simp [h1, h2, firstPresent]
  by_cases h3 : (f h).truthy
  · simp [h3]
  · have : f h = .undefined := by
      simp only [presentOrAbsent, Bool.or_eq_true, beq_iff_eq, h3] at ph
      exact ph.resolve_right (by simp)
    simp [h3, this]

/-- Credential extraction without a body container equals first-present
over header then query, provided the terminal query field is
unambiguous. -/
theorem pickToken_no_body_case (req : Request) (q h : Params) (f : Params → JsVal)
    (hb : req.body = none) (hq : req.query = some q) (hh : req.headers = some h)
    (pq : presentOrAbsent (f q) = true) :
    pickToken req f = .ok (firstPresent [f h, f q]) := by
  simp only [pickToken, hb, hq, hh, getField, firstPresent]
  by_cases h1 : (f h).truthy <;> simp [h1, firstPresent]
  by_cases h2 : (f q).truthy
  · simp [h2]
  · have : f q = .undefined := by
      simp only [presentOrAbsent, Bool.or_eq_true, beq_iff_eq, h2] at pq
      exact pq.resolve_right (by simp)
    simp [h2, this]

/-- C2: for each credential independently (access token and refresh
token), on requests whose query and headers containers are present and
whose fields are unambiguously present-or-absent, extraction with a body
container present takes the first present value of body, then query, then
header, and extraction without a body container takes the first present
value of header, then query. -/
theorem pickToken_precedence (req : Request) (q h : Params)
    (hq : req.query = some q) (hh : req.headers = some h)
    (pqa : presentOrAbsent q.access_token = true) (pha : presentOrAbsent h.access_token = true)
    (pqr : presentOrAbsent q.refresh_token = true) (phr : presentOrAbsent h.refresh_token = true) :
    (∀ b, req.body = some b →
      pickToken req Params.access_token =
        .ok (firstPresent [b.access_token, q.access_token, h.access_token]) ∧
      pickToken req Params.refresh_token =
        .ok (firstPresent [b.refresh_token, q.refresh_token, h.refresh_token])) ∧
    (req.body = none →
      pickToken req Params.access_token =
        .ok (firstPresent [h.access_token, q.access_token]) ∧
      pickToken req Params.refresh_token =
        .ok (firstPresent [h.refresh_token, q.refresh_token])) := by
  constructor
  · intro b hb
    exact ⟨pickToken_body_case req b q h Params.access_token hb hq hh pha,
           pickToken_body_case req b q h Params.refresh_token hb hq hh phr⟩
  · intro hb
    exact ⟨pickToken_no_body_case req q h Params.access_token hb hq hh pqa,
           pickToken_no_body_case req q h Params.refresh_token hb hq hh pqr⟩

/-- Witness for C2: a request with a body container where the body's
access token is absent (so the query value wins over the header value)
and the body's refresh token is present (so it wins). -/
theorem pickToken_precedence_witness :
    pickToken
      { body := some { refresh_token := .str "rb" }
        query := some { access_token := .str "qa" }
        headers := some { access_token := .str "ha", refresh_token := .str "hr" } }
      Params.access_token = .ok (.str "qa") ∧
    pickToken
      { body := some { refresh_token := .str "rb" }
        query := some { access_token := .str "qa" }
        headers := some { access_token := .str "ha", refresh_token := .str "hr" } }
      Params.refresh_token = .ok (.str "rb") := by
  have h := (pickToken_precedence
      { body := some { refresh_token := .str "rb" }
        query := some { access_token := .str "qa" }
        headers := some { access_token := .str "ha", refresh_token := .str "hr" } }
      { access_token := .str "qa" }
      { access_token := .str "ha", refresh_token := .str "hr" }
      rfl rfl (by decide) (by decide) (by decide) (by decide)).1
      { refresh_token := .str "rb" } rfl
  exact ⟨h.1, h.2⟩

/-- Environment exhibiting a transport error, for C1. -/
def c1Env : Env :=
  { http := fun _ => (.exn "ECONNREFUSED" .undefined, "")
    parse := fun _ => .ok {}
    verify := fun _ _ _ _ => (.undefined, .undefined, .undefined) }

/-- A well-formed request carrying an access token in its body, for C1. -/
def c1Req : Request :=
  { query := some {}, body := some { access_token := .str "tok" }, headers := some {} }

/-- Counterexample to C1: on a transport error in the profile-load step,
`authenticate` signals the fail outcome carrying the wrapped error — not
the error outcome the claim states. -/
theorem authenticate_load_error_counterexample :
    authenticate {} c1Env c1Req =
      .fail (.internalOAuthError "failed to fetch user profile" (.exn "ECONNREFUSED" .undefined)) ∧
    isErrorOut (authenticate {} c1Env c1Req) = false :=
  ⟨rfl, rfl⟩

/-- C1 as amended: whenever the profile-load step completes with an error
(transport, parse, or skip-policy error), `authenticate` signals the
framework's fail outcome carrying that error (the source's
`self.fail(err)` at strategy.ts line 100). -/
theorem authenticate_load_error_signals_fail (cfg : Config) (env : Env) (req : Request)
    (tok rtok e : JsVal)
    (hqe : queryErrorFlag req = false)
    (ha : pickToken req Params.access_token = .ok tok)
    (hr : pickToken req Params.refresh_token = .ok rtok)
    (hl : _loadUserProfile cfg.skipUserProfile (mkFetch env) tok = .error e) :
    authenticate cfg env req = .fail e := by
  simp [authenticate, hqe, ha, hr, hl]

/-- Witness for amended C1: the concrete transport-error run. -/
theorem authenticate_load_error_signals_fail_witness :
    authenticate {} c1Env c1Req =
      .fail (.internalOAuthError "failed to fetch user profile"
        (.exn "ECONNREFUSED" .undefined)) :=
  authenticate_load_error_signals_fail {} c1Env c1Req (.str "tok") .undefined
    (.internalOAuthError "failed to fetch user profile" (.exn "ECONNREFUSED" .undefined))
    rfl rfl rfl rfl

/-- Environment for the C10 witness. -/
def c10Env : Env :=
  { http := fun _ => (.null, "body")
    parse := fun _ => .ok {}
    verify := fun _ _ _ _ => (.undefined, .undefined, .undefined) }

/-- C10: credential extraction is not total at the public interface. With
a body container whose access token is falsy, `authenticate` dereferences
the query container (and then the headers container); without a body
container it dereferences the headers container first; whenever the
dereferenced container is missing, `authenticate` throws and signals no
framework outcome, so query and headers are not uniformly optional. -/
theorem authenticate_missing_container_throws :
    (∀ cfg env req b, req.body = some b → b.access_token.truthy = false →
      req.query = none → authenticate cfg env req = .thrown) ∧
    (∀ cfg env req b q, req.body = some b → b.access_token.truthy = false →
      req.query = some q → q.error.truthy = false → q.access_token.truthy = false →
      req.headers = none → authenticate cfg env req = .thrown) ∧
    (∀ cfg env req, req.body = none → queryErrorFlag req = false →
      req.headers = none → authenticate cfg env req = .thrown) := by
  refine ⟨?_, ?_, ?_⟩
  · intro cfg env req b hb hat hq
    simp [authenticate, queryErrorFlag, hq, pickToken, hb, hat, getField]
  · intro cfg env req b q hb hat hq hqe hqat hh
    simp [authenticate, queryErrorFlag, hq, hqe, pickToken, hb, hat, hqat, getField, hh]
  · intro cfg env req hb hqe hh
    simp [authenticate, hqe, pickToken, hb, getField, hh]

/-- Witness for C10: the three concrete requests — body present with a
falsy access token and no query container; body and query present (no
error, falsy tokens) and no headers container; and no body and no headers
container. Each makes `authenticate` throw. -/
theorem authenticate_missing_container_throws_witness :
    authenticate {} c10Env { body := some {}, headers := some {} } = .thrown ∧
    authenticate {} c10Env { body := some {}, query := some {} } = .thrown ∧
    authenticate {} c10Env {} = .thrown :=
  ⟨authenticate_missing_container_throws.1 {} c10Env
      { body := some {}, headers := some {} } {} rfl (by decide) rfl,
   authenticate_missing_container_throws.2.1 {} c10Env
      { body := some {}, query := some {} } {} {} rfl (by decide) rfl (by decide) (by decide) rfl,
   authenticate_missing_container_throws.2.2 {} c10Env {} rfl rfl rfl⟩

/-- On a request exposing query and headers containers, credential
extraction never throws. -/
theorem pickToken_ok_of_containers (req : Request) (q h : Params) (f : Params → JsVal)
    (hq : req.query = some q) (hh : req.headers = some h) :
    ∃ v, pickToken req f = .ok v := by
  cases hb : req.body with
  | some b =>
    by_cases h1 : (f b).truthy
    · exact ⟨f b, by simp [pickToken, hb, h1]⟩
    · by_cases h2 : (f q).truthy
      · exact ⟨f q, by simp [pickToken, hb, hq, getField, h1, h2]⟩
      · exact ⟨f h, by simp [pickToken, hb, hq, hh, getField, h1, h2]⟩
  | none =>
    by_cases h1 : (f h).truthy
    · exact ⟨f h, by simp [pickToken, hb, hh, getField, h1]⟩
    · exact ⟨f q, by simp [pickToken, hb, hq, hh, getField, h1]⟩

/-- The continuation `verified` always signals a framework outcome. -/
theorem isFramed_verified (e u i : JsVal) : isFramed (verified e u i) = true := by
  unfold verified
  by_cases h1 : e.truthy <;> by_cases h2 : u.truthy <;> simp [h1, h2, isFramed]

/-- Environment for the C9 theorems. -/
def c9Env : Env :=
  { http := fun _ => (.null, "body")
    parse := fun _ => .error (.exn "SyntaxError" .undefined)
    verify := fun _ _ _ _ => (.undefined, .undefined, .undefined) }

/-- Counterexample to C9: a request with a body container whose access
token is absent and with no query container makes `authenticate` throw,
so zero framework outcomes are signalled, refuting "exactly one outcome
for every request". -/
theorem authenticate_single_outcome_counterexample :
    authenticate {} c9Env { body := some {}, headers := some {} } = .thrown ∧
    isFramed (authenticate {} c9Env { body := some {}, headers := some {} }) = false :=
  ⟨rfl, rfl⟩

/-- C9 as amended: for every request exposing the query and headers
containers (so credential extraction cannot throw), one `authenticate`
invocation — each delegated continuation being invoked at most once, as
the embedding fixes — signals exactly one of the three framework
outcomes: it returns a single `Outcome` and that outcome is framed. -/
theorem authenticate_single_outcome (cfg : Config) (env : Env) (req : Request)
    (q h : Params) (hq : req.query = some q) (hh : req.headers = some h) :
    isFramed (authenticate cfg env req) = true := by
  unfold authenticate
  by_cases hqe : queryErrorFlag req
  · simp [hqe, isFramed]
  · obtain ⟨a, ha⟩ := pickToken_ok_of_containers req q h Params.access_token hq hh
    obtain ⟨r, hr⟩ := pickToken_ok_of_containers req q h Params.refresh_token hq hh
    simp only [hqe, if_false, Bool.false_eq_true, ha, hr]
    cases hl : _loadUserProfile cfg.skipUserProfile (mkFetch env) a with
    | error e => simp [hl, isFramed]
    | ok p => simp [hl, isFramed_verified]

/-- Witness for amended C9: a concrete request with query and headers
containers present signals a framed outcome. -/
theorem authenticate_single_outcome_witness :
    isFramed (authenticate {} c9Env { query := some {}, headers := some {} }) = true :=
  authenticate_single_outcome {} c9Env { query := some {}, headers := some {} } {} {} rfl rfl
